import Mathlib

/-!
Verification of the sklearn_examples repository: a gallery of self-contained
example notebooks demonstrating scikit-learn estimators.  Each example script
is embedded as a list of operations transcribed statement by statement from
its source notebook, together with the per-script import lists.  The few
numerical fragments the claims single out (the face-completion column split,
the ROC mean-curve aggregation, and the GMM ellipse covariance selection) are
embedded as executable functions over rationals and lists.
-/

namespace SklearnExamples

/-- External libraries the scripts call into; repoLocal marks work a script
would implement itself (no such imports exist in the repository). -/
inductive Lib
  | sklearn
  | numpy
  | scipy
  | matplotlib
  | plotly
  | pandas
  | polars
  | joblib
  | stdlib
  | repoLocal
  deriving DecidableEq

/-- Estimator families named in the spec plus the remaining sklearn families
that appear in the scripts. -/
inductive Family
  | svc
  | ensembleTree
  | gaussianProcess
  | covarianceEst
  | manifoldTSNE
  | dictionaryLearning
  | scalerTransformer
  | gaussianMixture
  | linearModel
  | neighbors
  | naiveBayes
  | neuralNet
  | decisionTree
  | metaEstimator
  deriving DecidableEq

/-- The kind of a top-level operation of a script.  Constructors
ownAlgorithmDef and classDef describe script-own algorithm or class
implementations; no transcription uses them, because no script contains one. -/
inductive OpKind
  | datasetLoad (name : String)
  | dataGen
  | dataSlice
  | estimatorConstruct (cls : String) (fam : Family)
  | libObjectConstruct (cls : String)
  | paramSet (cls : String)
  | fitCall (cls : String)
  | fitTransformCall (cls : String)
  | predictCall (cls : String)
  | transformCall (cls : String)
  | scoreCall (cls : String)
  | displayFromEstimator (cls : String) (doesFit : Bool)
  | plotCall
  | showCall
  | numericCompute
  | printCall
  | timeCall
  | helperDef (name : String)
  | helperCall (name : String)
  | attrInspect
  | seedSet
  | tryImportFallback (l1 l2 : Lib)
  | warnSuppressDecorator (provider : Lib)
  | ownAlgorithmDef
  | classDef (name : String)
  deriving DecidableEq

/-- One top-level operation: its kind and the library carrying out its work. -/
structure Op where
  kind : OpKind
  lib : Lib
  deriving DecidableEq

/-- One example script: its name, its imports (module path and library), and
its operations in source order.  Bodies of locally defined helper functions
are transcribed inline at the position of the definition. -/
structure Script where
  name : String
  imports : List (String × Lib)
  ops : List Op
  deriving DecidableEq

/-- Script src/unnamed/part_000: Plot different SVM classifiers in the iris
dataset.  load_iris, four svm constructions, fits via a generator, decision
boundary plots, plt.show. -/
def svmIris : Script where
  name := "plot_iris_svc"
  imports := [("matplotlib.pyplot", .matplotlib), ("sklearn", .sklearn),
    ("sklearn.inspection", .sklearn)]
  ops := [
    ⟨.datasetLoad "load_iris", .sklearn⟩,          -- iris = datasets.load_iris()
    ⟨.dataSlice, .numpy⟩,                          -- X = iris.data[:, :2]; y = iris.target
    ⟨.estimatorConstruct "SVC" .svc, .sklearn⟩,    -- svm.SVC(kernel="linear", C=C)
    ⟨.estimatorConstruct "LinearSVC" .svc, .sklearn⟩,
    ⟨.estimatorConstruct "SVC" .svc, .sklearn⟩,    -- svm.SVC(kernel="rbf", ...)
    ⟨.estimatorConstruct "SVC" .svc, .sklearn⟩,    -- svm.SVC(kernel="poly", ...)
    ⟨.fitCall "SVC", .sklearn⟩,                    -- models = (clf.fit(X, y) for clf in models)
    ⟨.fitCall "LinearSVC", .sklearn⟩,
    ⟨.plotCall, .matplotlib⟩,                      -- fig, sub = plt.subplots(2, 2); subplots_adjust
    ⟨.dataSlice, .numpy⟩,                          -- X0, X1 = X[:, 0], X[:, 1]
    -- loop body: for clf, title, ax in zip(...)
    ⟨.displayFromEstimator "DecisionBoundaryDisplay" false, .sklearn⟩,
    ⟨.plotCall, .matplotlib⟩,                      -- ax.scatter(...)
    ⟨.plotCall, .matplotlib⟩,                      -- set_xticks / set_yticks / set_title
    ⟨.showCall, .matplotlib⟩]                      -- plt.show()

/-- Script src/unnamed/part_001: Plotting Learning Curves and Checking Models
Scalability.  load_digits, GaussianNB and SVC, LearningCurveDisplay (which
fits internally), learning_curve timing runs, plots, plt.show. -/
def learningCurves : Script where
  name := "plot_learning_curve"
  imports := [("sklearn.datasets", .sklearn), ("sklearn.naive_bayes", .sklearn),
    ("sklearn.svm", .sklearn), ("matplotlib.pyplot", .matplotlib),
    ("numpy", .numpy), ("sklearn.model_selection", .sklearn)]
  ops := [
    ⟨.datasetLoad "load_digits", .sklearn⟩,
    ⟨.estimatorConstruct "GaussianNB" .naiveBayes, .sklearn⟩,
    ⟨.estimatorConstruct "SVC" .svc, .sklearn⟩,
    ⟨.plotCall, .matplotlib⟩,                      -- fig, ax = plt.subplots(...)
    ⟨.libObjectConstruct "ShuffleSplit", .sklearn⟩,  -- cv in common_params
    -- loop body: for ax_idx, estimator in enumerate([naive_bayes, svc])
    ⟨.displayFromEstimator "LearningCurveDisplay" true, .sklearn⟩,
    ⟨.plotCall, .matplotlib⟩,                      -- legend handles / titles
    ⟨.libObjectConstruct "ShuffleSplit", .sklearn⟩,  -- second common_params
    ⟨.fitCall "GaussianNB", .sklearn⟩,             -- learning_curve(naive_bayes, ...) fits folds
    ⟨.fitCall "SVC", .sklearn⟩,                    -- learning_curve(svc, ...)
    ⟨.plotCall, .matplotlib⟩,                      -- fig, ax = plt.subplots(nrows=2, ...)
    -- loop body: scalability plots
    ⟨.numericCompute, .numpy⟩,                     -- fit_times.mean(axis=1) / .std(axis=1)
    ⟨.plotCall, .matplotlib⟩,                      -- plot / fill_between / labels
    ⟨.plotCall, .matplotlib⟩,                      -- fig, ax = plt.subplots(nrows=1, ...)
    -- loop body: trade-off plots
    ⟨.numericCompute, .numpy⟩,                     -- test_scores.mean(axis=1) ...
    ⟨.plotCall, .matplotlib⟩,                      -- plot / fill_between / labels
    ⟨.showCall, .matplotlib⟩]

/-- Script src/unnamed/part_002: Precision-Recall.  load_iris plus noisy
features, LinearSVC pipeline, PrecisionRecallDisplay, multi-label extension,
iso-f1 curves, plt.show. -/
def precisionRecall : Script where
  name := "plot_precision_recall"
  imports := [("numpy", .numpy), ("sklearn.datasets", .sklearn),
    ("sklearn.model_selection", .sklearn), ("sklearn.pipeline", .sklearn),
    ("sklearn.preprocessing", .sklearn), ("sklearn.svm", .sklearn),
    ("sklearn.metrics", .sklearn), ("sklearn.multiclass", .sklearn),
    ("collections", .stdlib), ("itertools", .stdlib),
    ("matplotlib.pyplot", .matplotlib)]
  ops := [
    ⟨.datasetLoad "load_iris", .sklearn⟩,
    ⟨.seedSet, .numpy⟩,                            -- np.random.RandomState(0)
    ⟨.dataGen, .numpy⟩,                            -- random_state.randn noisy features
    ⟨.dataSlice, .numpy⟩,                          -- np.concatenate, X[y < 2]
    ⟨.dataSlice, .sklearn⟩,                        -- train_test_split
    ⟨.estimatorConstruct "StandardScaler" .scalerTransformer, .sklearn⟩,
    ⟨.estimatorConstruct "LinearSVC" .svc, .sklearn⟩,
    ⟨.estimatorConstruct "Pipeline" .metaEstimator, .sklearn⟩,  -- make_pipeline
    ⟨.fitCall "Pipeline", .sklearn⟩,               -- classifier.fit(X_train, y_train)
    ⟨.displayFromEstimator "PrecisionRecallDisplay" false, .sklearn⟩,
    ⟨.plotCall, .matplotlib⟩,                      -- display.ax_.set_title
    ⟨.predictCall "Pipeline", .sklearn⟩,           -- classifier.decision_function
    ⟨.displayFromEstimator "PrecisionRecallDisplay" false, .sklearn⟩,  -- from_predictions
    ⟨.plotCall, .matplotlib⟩,
    ⟨.dataSlice, .sklearn⟩,                        -- label_binarize
    ⟨.dataSlice, .sklearn⟩,                        -- train_test_split
    ⟨.estimatorConstruct "StandardScaler" .scalerTransformer, .sklearn⟩,
    ⟨.estimatorConstruct "LinearSVC" .svc, .sklearn⟩,
    ⟨.estimatorConstruct "Pipeline" .metaEstimator, .sklearn⟩,
    ⟨.estimatorConstruct "OneVsRestClassifier" .metaEstimator, .sklearn⟩,
    ⟨.fitCall "OneVsRestClassifier", .sklearn⟩,
    ⟨.predictCall "OneVsRestClassifier", .sklearn⟩,  -- decision_function
    ⟨.numericCompute, .sklearn⟩,                   -- precision_recall_curve per class
    ⟨.numericCompute, .sklearn⟩,                   -- micro-averaged curve and AP
    ⟨.libObjectConstruct "PrecisionRecallDisplay", .sklearn⟩,
    ⟨.plotCall, .matplotlib⟩,                      -- display.plot(plot_chance_level=True)
    ⟨.plotCall, .matplotlib⟩,                      -- _, ax = plt.subplots(figsize=(7, 8))
    -- loop body: iso-f1 curves
    ⟨.numericCompute, .numpy⟩,                     -- y = f_score * x / (2 * x - f_score)
    ⟨.plotCall, .matplotlib⟩,                      -- plt.plot / plt.annotate
    ⟨.libObjectConstruct "PrecisionRecallDisplay", .sklearn⟩,
    ⟨.plotCall, .matplotlib⟩,                      -- display.plot micro average
    -- loop body: per-class curves
    ⟨.libObjectConstruct "PrecisionRecallDisplay", .sklearn⟩,
    ⟨.plotCall, .matplotlib⟩,
    ⟨.plotCall, .matplotlib⟩,                      -- legend / title
    ⟨.showCall, .matplotlib⟩]

/-- Script src/unnamed/part_003: t-SNE, the effect of various perplexity
values.  make_circles, make_s_curve and a uniform grid; TSNE fit_transform in
timed loops with progress prints; plt.show. -/
def tsnePerplexity : Script where
  name := "plot_t_sne_perplexity"
  imports := [("time", .stdlib), ("matplotlib.pyplot", .matplotlib),
    ("numpy", .numpy), ("matplotlib.ticker", .matplotlib),
    ("sklearn", .sklearn)]
  ops := [
    ⟨.plotCall, .matplotlib⟩,                      -- (fig, subplots) = plt.subplots(3, 5, ...)
    ⟨.datasetLoad "make_circles", .sklearn⟩,
    ⟨.dataSlice, .numpy⟩,                          -- red = y == 0; green = y == 1
    ⟨.plotCall, .matplotlib⟩,                      -- scatters / formatters / axis
    -- loop body: for i, perplexity in enumerate(perplexities)
    ⟨.timeCall, .stdlib⟩,                          -- t0 = time()
    ⟨.estimatorConstruct "TSNE" .manifoldTSNE, .sklearn⟩,
    ⟨.fitTransformCall "TSNE", .sklearn⟩,
    ⟨.timeCall, .stdlib⟩,
    ⟨.printCall, .stdlib⟩,
    ⟨.plotCall, .matplotlib⟩,
    ⟨.datasetLoad "make_s_curve", .sklearn⟩,
    ⟨.plotCall, .matplotlib⟩,
    -- loop body: S-curve perplexities
    ⟨.timeCall, .stdlib⟩,
    ⟨.estimatorConstruct "TSNE" .manifoldTSNE, .sklearn⟩,
    ⟨.fitTransformCall "TSNE", .sklearn⟩,
    ⟨.timeCall, .stdlib⟩,
    ⟨.printCall, .stdlib⟩,
    ⟨.plotCall, .matplotlib⟩,
    ⟨.dataGen, .numpy⟩,                            -- np.linspace / meshgrid / hstack grid
    ⟨.plotCall, .matplotlib⟩,
    -- loop body: uniform grid perplexities
    ⟨.timeCall, .stdlib⟩,
    ⟨.estimatorConstruct "TSNE" .manifoldTSNE, .sklearn⟩,
    ⟨.fitTransformCall "TSNE", .sklearn⟩,
    ⟨.timeCall, .stdlib⟩,
    ⟨.printCall, .stdlib⟩,
    ⟨.plotCall, .matplotlib⟩,
    ⟨.showCall, .matplotlib⟩]

/-- Script src/unnamed/part_004: Image denoising using dictionary learning.
scipy raccoon face with an ImportError fallback between scipy module paths,
MiniBatchDictionaryLearning fit and transform, local show_with_diff plotting
helper, plt.show.  The helper body is transcribed inline at its definition. -/
def dictionaryLearningDenoise : Script where
  name := "plot_image_denoising"
  imports := [("numpy", .numpy), ("scipy.datasets", .scipy),
    ("matplotlib.pyplot", .matplotlib), ("time", .stdlib),
    ("sklearn.feature_extraction.image", .sklearn),
    ("sklearn.decomposition", .sklearn)]
  ops := [
    ⟨.tryImportFallback .scipy .scipy, .scipy⟩,    -- try scipy.datasets.face except ImportError scipy.misc.face
    ⟨.datasetLoad "face", .scipy⟩,                 -- raccoon_face = face(gray=True)
    ⟨.numericCompute, .numpy⟩,                     -- raccoon_face / 255.0
    ⟨.dataSlice, .numpy⟩,                          -- downsample by strided slicing
    ⟨.numericCompute, .numpy⟩,                     -- sum of four shifted slices / 4
    ⟨.printCall, .stdlib⟩,                         -- print("Distorting image...")
    ⟨.dataSlice, .numpy⟩,                          -- distorted = raccoon_face.copy()
    ⟨.dataGen, .numpy⟩,                            -- += 0.075 * np.random.randn(...)
    ⟨.helperDef "show_with_diff", .repoLocal⟩,
    -- show_with_diff body
    ⟨.plotCall, .matplotlib⟩,                      -- figure / subplot / imshow image
    ⟨.numericCompute, .numpy⟩,                     -- difference and its norm
    ⟨.plotCall, .matplotlib⟩,                      -- imshow difference / suptitle
    ⟨.helperCall "show_with_diff", .repoLocal⟩,    -- show_with_diff(distorted, ...)
    ⟨.printCall, .stdlib⟩,
    ⟨.timeCall, .stdlib⟩,
    ⟨.dataSlice, .sklearn⟩,                        -- extract_patches_2d left half + reshape
    ⟨.numericCompute, .numpy⟩,                     -- center and scale patches
    ⟨.printCall, .stdlib⟩,
    ⟨.estimatorConstruct "MiniBatchDictionaryLearning" .dictionaryLearning, .sklearn⟩,
    ⟨.fitCall "MiniBatchDictionaryLearning", .sklearn⟩,  -- V = dico.fit(data).components_
    ⟨.printCall, .stdlib⟩,                         -- n_iter_ / n_steps_ report
    ⟨.plotCall, .matplotlib⟩,                      -- dictionary atoms figure
    ⟨.printCall, .stdlib⟩,
    ⟨.timeCall, .stdlib⟩,
    ⟨.dataSlice, .sklearn⟩,                        -- extract_patches_2d right half
    ⟨.numericCompute, .numpy⟩,                     -- intercept = np.mean(data, axis=0)
    -- loop body: for title, transform_algorithm, kwargs in transform_algorithms
    ⟨.printCall, .stdlib⟩,
    ⟨.dataSlice, .numpy⟩,                          -- reconstructions[title] = raccoon_face.copy()
    ⟨.timeCall, .stdlib⟩,
    ⟨.paramSet "MiniBatchDictionaryLearning", .sklearn⟩,  -- dico.set_params(...)
    ⟨.transformCall "MiniBatchDictionaryLearning", .sklearn⟩,
    ⟨.numericCompute, .numpy⟩,                     -- np.dot(code, V) + intercept, rescale
    ⟨.numericCompute, .sklearn⟩,                   -- reconstruct_from_patches_2d
    ⟨.printCall, .stdlib⟩,
    ⟨.helperCall "show_with_diff", .repoLocal⟩,
    ⟨.showCall, .matplotlib⟩]

/-- Script src/unnamed/part_005 document 0: Forecasting of CO2 level on Mona
Loa dataset using Gaussian process regression.  fetch_openml, polars
preprocessing, kernel engineering, GaussianProcessRegressor fit and predict,
plots, and finally a bare inspection of the fitted kernel hyperparameters
(gaussian_process.kernel_) after the last plot. -/
def gprCo2 : Script where
  name := "plot_gpr_co2"
  imports := [("sklearn.datasets", .sklearn), ("polars", .polars),
    ("matplotlib.pyplot", .matplotlib),
    ("sklearn.gaussian_process.kernels", .sklearn),
    ("sklearn.gaussian_process", .sklearn), ("datetime", .stdlib),
    ("numpy", .numpy)]
  ops := [
    ⟨.printCall, .stdlib⟩,                         -- print(__doc__)
    ⟨.datasetLoad "fetch_openml", .sklearn⟩,
    ⟨.attrInspect, .pandas⟩,                       -- co2.frame.head()
    ⟨.dataSlice, .polars⟩,                         -- pl.DataFrame select date / co2
    ⟨.attrInspect, .polars⟩,                       -- co2_data.head()
    ⟨.attrInspect, .polars⟩,                       -- date min / max
    ⟨.plotCall, .matplotlib⟩,                      -- raw measurements plot
    ⟨.numericCompute, .polars⟩,                    -- monthly average group_by_dynamic
    ⟨.plotCall, .matplotlib⟩,                      -- monthly average plot
    ⟨.dataSlice, .polars⟩,                         -- X, y numeric conversion
    ⟨.libObjectConstruct "RBF", .sklearn⟩,         -- long_term_trend_kernel
    ⟨.libObjectConstruct "RBF", .sklearn⟩,
    ⟨.libObjectConstruct "ExpSineSquared", .sklearn⟩,  -- seasonal_kernel
    ⟨.libObjectConstruct "RationalQuadratic", .sklearn⟩,
    ⟨.libObjectConstruct "RBF", .sklearn⟩,
    ⟨.libObjectConstruct "WhiteKernel", .sklearn⟩,  -- noise_kernel
    ⟨.libObjectConstruct "Kernel", .sklearn⟩,      -- co2_kernel sum of components
    ⟨.attrInspect, .sklearn⟩,                      -- co2_kernel
    ⟨.numericCompute, .numpy⟩,                     -- y_mean = y.mean()
    ⟨.estimatorConstruct "GaussianProcessRegressor" .gaussianProcess, .sklearn⟩,
    ⟨.fitCall "GaussianProcessRegressor", .sklearn⟩,
    ⟨.timeCall, .stdlib⟩,                          -- datetime.datetime.now()
    ⟨.dataSlice, .numpy⟩,                          -- X_test = np.linspace(...).reshape(-1, 1)
    ⟨.predictCall "GaussianProcessRegressor", .sklearn⟩,
    ⟨.numericCompute, .numpy⟩,                     -- mean_y_pred += y_mean
    ⟨.plotCall, .matplotlib⟩,                      -- prediction plot with fill_between
    ⟨.attrInspect, .sklearn⟩]                      -- gaussian_process.kernel_ (final statement)

/-- Script src/unnamed/part_005 document 1: Probabilistic predictions with
Gaussian process classification.  Synthetic data from numpy RandomState,
two GaussianProcessClassifier fits, metric prints, posterior and LML
landscape plots, plt.show. -/
def gpcProbabilistic : Script where
  name := "plot_gpc"
  imports := [("numpy", .numpy), ("matplotlib", .matplotlib),
    ("sklearn.gaussian_process", .sklearn),
    ("sklearn.gaussian_process.kernels", .sklearn),
    ("sklearn.metrics", .sklearn)]
  ops := [
    ⟨.seedSet, .numpy⟩,                            -- rng = np.random.RandomState(0)
    ⟨.dataGen, .numpy⟩,                            -- X = rng.uniform(...); y threshold
    ⟨.libObjectConstruct "RBF", .sklearn⟩,
    ⟨.estimatorConstruct "GaussianProcessClassifier" .gaussianProcess, .sklearn⟩,
    ⟨.fitCall "GaussianProcessClassifier", .sklearn⟩,  -- gp_fix.fit
    ⟨.libObjectConstruct "RBF", .sklearn⟩,
    ⟨.estimatorConstruct "GaussianProcessClassifier" .gaussianProcess, .sklearn⟩,
    ⟨.fitCall "GaussianProcessClassifier", .sklearn⟩,  -- gp_opt.fit
    ⟨.numericCompute, .sklearn⟩,                   -- log_marginal_likelihood values
    ⟨.printCall, .stdlib⟩,
    ⟨.predictCall "GaussianProcessClassifier", .sklearn⟩,
    ⟨.numericCompute, .sklearn⟩,                   -- accuracy_score
    ⟨.printCall, .stdlib⟩,
    ⟨.predictCall "GaussianProcessClassifier", .sklearn⟩,  -- predict_proba
    ⟨.numericCompute, .sklearn⟩,                   -- log_loss
    ⟨.printCall, .stdlib⟩,
    ⟨.plotCall, .matplotlib⟩,                      -- figure / train and test scatters
    ⟨.dataSlice, .numpy⟩,                          -- X_ = np.linspace(0, 5, 100)
    ⟨.predictCall "GaussianProcessClassifier", .sklearn⟩,
    ⟨.plotCall, .matplotlib⟩,                      -- posterior curves / labels / legend
    ⟨.plotCall, .matplotlib⟩,                      -- plt.figure() for LML landscape
    ⟨.dataSlice, .numpy⟩,                          -- logspace / meshgrid
    ⟨.numericCompute, .sklearn⟩,                   -- LML grid evaluation
    ⟨.plotCall, .matplotlib⟩,                      -- plots / pcolor / colorbar / labels
    ⟨.showCall, .matplotlib⟩]

/-- Script src/unnamed/part_005 document 2: Compare the effect of different
scalers on data with outliers.  fetch_california_housing, nine scaler and
transformer fit_transform runs, local plotting helpers create_axes,
plot_distribution and make_plot, ten make_plot calls, plt.show. -/
def scalersComparison : Script where
  name := "plot_all_scaling"
  imports := [("matplotlib", .matplotlib), ("numpy", .numpy),
    ("sklearn.datasets", .sklearn), ("sklearn.preprocessing", .sklearn)]
  ops := [
    ⟨.datasetLoad "fetch_california_housing", .sklearn⟩,
    ⟨.dataSlice, .numpy⟩,                          -- two-feature selection
    ⟨.estimatorConstruct "StandardScaler" .scalerTransformer, .sklearn⟩,
    ⟨.fitTransformCall "StandardScaler", .sklearn⟩,
    ⟨.estimatorConstruct "MinMaxScaler" .scalerTransformer, .sklearn⟩,
    ⟨.fitTransformCall "MinMaxScaler", .sklearn⟩,
    ⟨.estimatorConstruct "MaxAbsScaler" .scalerTransformer, .sklearn⟩,
    ⟨.fitTransformCall "MaxAbsScaler", .sklearn⟩,
    ⟨.estimatorConstruct "RobustScaler" .scalerTransformer, .sklearn⟩,
    ⟨.fitTransformCall "RobustScaler", .sklearn⟩,
    ⟨.estimatorConstruct "PowerTransformer" .scalerTransformer, .sklearn⟩,
    ⟨.fitTransformCall "PowerTransformer", .sklearn⟩,  -- yeo-johnson
    ⟨.estimatorConstruct "PowerTransformer" .scalerTransformer, .sklearn⟩,
    ⟨.fitTransformCall "PowerTransformer", .sklearn⟩,  -- box-cox
    ⟨.estimatorConstruct "QuantileTransformer" .scalerTransformer, .sklearn⟩,
    ⟨.fitTransformCall "QuantileTransformer", .sklearn⟩,  -- uniform output
    ⟨.estimatorConstruct "QuantileTransformer" .scalerTransformer, .sklearn⟩,
    ⟨.fitTransformCall "QuantileTransformer", .sklearn⟩,  -- normal output
    ⟨.estimatorConstruct "Normalizer" .scalerTransformer, .sklearn⟩,
    ⟨.fitTransformCall "Normalizer", .sklearn⟩,
    ⟨.numericCompute, .sklearn⟩,                   -- y = minmax_scale(y_full)
    ⟨.helperDef "create_axes", .repoLocal⟩,
    -- create_axes body
    ⟨.plotCall, .matplotlib⟩,                      -- figure / suptitle / axes layout
    ⟨.helperDef "plot_distribution", .repoLocal⟩,
    -- plot_distribution body
    ⟨.plotCall, .matplotlib⟩,                      -- scatter / spines / histograms
    ⟨.helperDef "make_plot", .repoLocal⟩,
    -- make_plot body
    ⟨.helperCall "create_axes", .repoLocal⟩,
    ⟨.helperCall "plot_distribution", .repoLocal⟩,
    ⟨.numericCompute, .numpy⟩,                     -- np.percentile cutoffs
    ⟨.dataSlice, .numpy⟩,                          -- non_outliers_mask
    ⟨.helperCall "plot_distribution", .repoLocal⟩,
    ⟨.libObjectConstruct "Normalize", .matplotlib⟩,
    ⟨.plotCall, .matplotlib⟩,                      -- ColorbarBase
    ⟨.helperCall "make_plot", .repoLocal⟩,         -- make_plot(0)
    ⟨.helperCall "make_plot", .repoLocal⟩,
    ⟨.helperCall "make_plot", .repoLocal⟩,
    ⟨.helperCall "make_plot", .repoLocal⟩,
    ⟨.helperCall "make_plot", .repoLocal⟩,
    ⟨.helperCall "make_plot", .repoLocal⟩,
    ⟨.helperCall "make_plot", .repoLocal⟩,
    ⟨.helperCall "make_plot", .repoLocal⟩,
    ⟨.helperCall "make_plot", .repoLocal⟩,
    ⟨.helperCall "make_plot", .repoLocal⟩,         -- make_plot(9)
    ⟨.showCall, .matplotlib⟩]

/-- Script src/covariance/plot_mahalanobis_distances.ipynb document 0: Robust
covariance estimation and Mahalanobis distances relevance.  The data set is
generated with numpy (np.random.seed, randn with a contaminating tail); a
MinCovDet and an EmpiricalCovariance estimator are fitted; contour and
boxplot figures; plt.show. -/
def mahalanobisDistances : Script where
  name := "plot_mahalanobis_distances"
  imports := [("numpy", .numpy), ("matplotlib.pyplot", .matplotlib),
    ("sklearn.covariance", .sklearn), ("matplotlib.lines", .matplotlib)]
  ops := [
    ⟨.seedSet, .numpy⟩,                            -- np.random.seed(7)
    ⟨.dataGen, .numpy⟩,                            -- X = randn(125, 2) @ gen_cov
    ⟨.dataGen, .numpy⟩,                            -- outlier rows replaced
    ⟨.estimatorConstruct "MinCovDet" .covarianceEst, .sklearn⟩,
    ⟨.fitCall "MinCovDet", .sklearn⟩,
    ⟨.estimatorConstruct "EmpiricalCovariance" .covarianceEst, .sklearn⟩,
    ⟨.fitCall "EmpiricalCovariance", .sklearn⟩,
    ⟨.printCall, .stdlib⟩,                         -- print estimated covariances
    ⟨.plotCall, .matplotlib⟩,                      -- subplots / scatters / xlim / title
    ⟨.dataSlice, .numpy⟩,                          -- meshgrid and np.c_
    ⟨.numericCompute, .sklearn⟩,                   -- emp_cov.mahalanobis(zz)
    ⟨.plotCall, .matplotlib⟩,                      -- MLE contour
    ⟨.numericCompute, .sklearn⟩,                   -- robust_cov.mahalanobis(zz)
    ⟨.plotCall, .matplotlib⟩,                      -- MCD contour
    ⟨.libObjectConstruct "Line2D", .matplotlib⟩,   -- legend proxy lines
    ⟨.plotCall, .matplotlib⟩,                      -- ax.legend
    ⟨.showCall, .matplotlib⟩,
    ⟨.plotCall, .matplotlib⟩,                      -- fig, (ax1, ax2) = plt.subplots(1, 2)
    ⟨.numericCompute, .sklearn⟩,                   -- emp_mahal cube roots
    ⟨.plotCall, .matplotlib⟩,                      -- boxplot / sample plots / labels
    ⟨.numericCompute, .sklearn⟩,                   -- robust_mahal cube roots
    ⟨.plotCall, .matplotlib⟩,                      -- boxplot / sample plots / labels
    ⟨.showCall, .matplotlib⟩]

/-- Script src/covariance/plot_mahalanobis_distances.ipynb document 1: Early
stopping of Stochastic Gradient Descent.  Local helpers load_mnist (which
fetches MNIST from OpenML) and fit_and_score (decorated with sklearn's
ignore_warnings for ConvergenceWarning); three SGDClassifier configurations;
pandas plotting; plt.show. -/
def sgdEarlyStopping : Script where
  name := "plot_sgd_early_stopping"
  imports := [("sys", .stdlib), ("time", .stdlib),
    ("matplotlib.pyplot", .matplotlib), ("numpy", .numpy),
    ("pandas", .pandas), ("sklearn", .sklearn),
    ("sklearn.datasets", .sklearn), ("sklearn.exceptions", .sklearn),
    ("sklearn.model_selection", .sklearn), ("sklearn.utils", .sklearn),
    ("sklearn.utils._testing", .sklearn)]
  ops := [
    ⟨.helperDef "load_mnist", .repoLocal⟩,
    -- load_mnist body
    ⟨.datasetLoad "fetch_openml", .sklearn⟩,       -- mnist_784
    ⟨.dataSlice, .numpy⟩,                          -- class mask / shuffle / truncation
    ⟨.warnSuppressDecorator .sklearn, .sklearn⟩,   -- @ignore_warnings(category=ConvergenceWarning)
    ⟨.helperDef "fit_and_score", .repoLocal⟩,
    -- fit_and_score body
    ⟨.paramSet "SGDClassifier", .sklearn⟩,         -- set_params(max_iter / random_state)
    ⟨.timeCall, .stdlib⟩,
    ⟨.fitCall "SGDClassifier", .sklearn⟩,
    ⟨.timeCall, .stdlib⟩,
    ⟨.attrInspect, .sklearn⟩,                      -- estimator.n_iter_
    ⟨.scoreCall "SGDClassifier", .sklearn⟩,        -- train score
    ⟨.scoreCall "SGDClassifier", .sklearn⟩,        -- test score
    ⟨.estimatorConstruct "SGDClassifier" .linearModel, .sklearn⟩,
    ⟨.estimatorConstruct "SGDClassifier" .linearModel, .sklearn⟩,
    ⟨.estimatorConstruct "SGDClassifier" .linearModel, .sklearn⟩,
    ⟨.helperCall "load_mnist", .repoLocal⟩,
    ⟨.dataSlice, .sklearn⟩,                        -- train_test_split
    -- loop body: for estimator_name, estimator / for max_iter
    ⟨.printCall, .stdlib⟩,
    ⟨.helperCall "fit_and_score", .repoLocal⟩,
    ⟨.dataSlice, .stdlib⟩,                         -- results.append(...)
    ⟨.printCall, .stdlib⟩,
    ⟨.dataSlice, .pandas⟩,                         -- results_df = pd.DataFrame(...)
    ⟨.plotCall, .matplotlib⟩,                      -- first figure subplots
    ⟨.dataSlice, .pandas⟩,                         -- groupby for plotting
    ⟨.plotCall, .matplotlib⟩,                      -- group_df.plot / legend / tight_layout
    ⟨.plotCall, .matplotlib⟩,                      -- second figure subplots
    ⟨.dataSlice, .pandas⟩,
    ⟨.plotCall, .matplotlib⟩,
    ⟨.showCall, .matplotlib⟩]

/-- Script src/miscellaneous/plot_multioutput_face_completion.ipynb document
0: Face completion with multi-output estimators.  fetch_olivetti_faces, the
upper/lower pixel-column split, four regressors fitted and predicting, image
grid, plt.show. -/
def faceCompletion : Script where
  name := "plot_multioutput_face_completion"
  imports := [("matplotlib.pyplot", .matplotlib), ("numpy", .numpy),
    ("sklearn.datasets", .sklearn), ("sklearn.ensemble", .sklearn),
    ("sklearn.linear_model", .sklearn), ("sklearn.neighbors", .sklearn),
    ("sklearn.utils.validation", .sklearn)]
  ops := [
    ⟨.datasetLoad "fetch_olivetti_faces", .sklearn⟩,
    ⟨.dataSlice, .numpy⟩,                          -- train / test split by targets
    ⟨.seedSet, .sklearn⟩,                          -- rng = check_random_state(4)
    ⟨.dataGen, .numpy⟩,                            -- face_ids = rng.randint(...)
    ⟨.dataSlice, .numpy⟩,                          -- test = test[face_ids, :]
    ⟨.dataSlice, .numpy⟩,                          -- X/y upper and lower half columns
    ⟨.estimatorConstruct "ExtraTreesRegressor" .ensembleTree, .sklearn⟩,
    ⟨.estimatorConstruct "KNeighborsRegressor" .neighbors, .sklearn⟩,
    ⟨.estimatorConstruct "LinearRegression" .linearModel, .sklearn⟩,
    ⟨.estimatorConstruct "RidgeCV" .linearModel, .sklearn⟩,
    -- loop body: for name, estimator in ESTIMATORS.items()
    ⟨.fitCall "ExtraTreesRegressor", .sklearn⟩,
    ⟨.predictCall "ExtraTreesRegressor", .sklearn⟩,
    ⟨.fitCall "KNeighborsRegressor", .sklearn⟩,
    ⟨.predictCall "KNeighborsRegressor", .sklearn⟩,
    ⟨.fitCall "LinearRegression", .sklearn⟩,
    ⟨.predictCall "LinearRegression", .sklearn⟩,
    ⟨.fitCall "RidgeCV", .sklearn⟩,
    ⟨.predictCall "RidgeCV", .sklearn⟩,
    ⟨.plotCall, .matplotlib⟩,                      -- figure / suptitle
    -- loop body: for i in range(n_faces)
    ⟨.dataSlice, .numpy⟩,                          -- true_face = np.hstack((X_test[i], y_test[i]))
    ⟨.plotCall, .matplotlib⟩,                      -- subplot / imshow true face
    ⟨.dataSlice, .numpy⟩,                          -- completed_face = np.hstack(...)
    ⟨.plotCall, .matplotlib⟩,                      -- subplot / imshow completion
    ⟨.showCall, .matplotlib⟩]

/-- Script src/miscellaneous/plot_multioutput_face_completion.ipynb document
1: Advanced Plotting With Partial Dependence.  load_diabetes, a decision
tree and an MLP pipeline fitted, repeated PartialDependenceDisplay plots; a
plt.show occurs mid-script and the final two statements are further
from_estimator display calls. -/
def partialDependence : Script where
  name := "plot_partial_dependence_visualization_api"
  imports := [("matplotlib.pyplot", .matplotlib), ("pandas", .pandas),
    ("sklearn.datasets", .sklearn), ("sklearn.inspection", .sklearn),
    ("sklearn.neural_network", .sklearn), ("sklearn.pipeline", .sklearn),
    ("sklearn.preprocessing", .sklearn), ("sklearn.tree", .sklearn)]
  ops := [
    ⟨.datasetLoad "load_diabetes", .sklearn⟩,
    ⟨.dataSlice, .pandas⟩,                         -- X = pd.DataFrame(...)
    ⟨.estimatorConstruct "DecisionTreeRegressor" .decisionTree, .sklearn⟩,
    ⟨.estimatorConstruct "StandardScaler" .scalerTransformer, .sklearn⟩,
    ⟨.estimatorConstruct "MLPRegressor" .neuralNet, .sklearn⟩,
    ⟨.estimatorConstruct "Pipeline" .metaEstimator, .sklearn⟩,  -- make_pipeline
    ⟨.fitCall "DecisionTreeRegressor", .sklearn⟩,
    ⟨.fitCall "Pipeline", .sklearn⟩,               -- mlp.fit(X, y)
    ⟨.plotCall, .matplotlib⟩,                      -- subplots / set_title
    ⟨.displayFromEstimator "PartialDependenceDisplay" false, .sklearn⟩,  -- tree_disp
    ⟨.plotCall, .matplotlib⟩,
    ⟨.displayFromEstimator "PartialDependenceDisplay" false, .sklearn⟩,  -- mlp_disp
    ⟨.plotCall, .matplotlib⟩,                      -- fig, (ax1, ax2) = plt.subplots(2, 1)
    ⟨.displayFromEstimator "PartialDependenceDisplay" false, .sklearn⟩,  -- tree_disp.plot
    ⟨.displayFromEstimator "PartialDependenceDisplay" false, .sklearn⟩,  -- mlp_disp.plot
    ⟨.plotCall, .matplotlib⟩,                      -- axis titles
    ⟨.plotCall, .matplotlib⟩,                      -- fig, (ax1, ax2) = plt.subplots(1, 2)
    ⟨.displayFromEstimator "PartialDependenceDisplay" false, .sklearn⟩,
    ⟨.displayFromEstimator "PartialDependenceDisplay" false, .sklearn⟩,
    ⟨.plotCall, .matplotlib⟩,                      -- legends
    ⟨.displayFromEstimator "PartialDependenceDisplay" false, .sklearn⟩,
    ⟨.displayFromEstimator "PartialDependenceDisplay" false, .sklearn⟩,
    ⟨.plotCall, .matplotlib⟩,                      -- set_size_inches / legends
    ⟨.showCall, .matplotlib⟩,                      -- plt.show() (mid-script)
    ⟨.displayFromEstimator "PartialDependenceDisplay" false, .sklearn⟩,  -- tree_disp from_estimator
    ⟨.displayFromEstimator "PartialDependenceDisplay" false, .sklearn⟩]  -- mlp_disp (final statement)

/-- Script src/ensemble/plot_forest_hist_grad_boosting_comparison.ipynb:
Comparing Random Forests and Histogram Gradient Boosting models.
fetch_california_housing, GridSearchCV fits over the two ensembles, plotly
figure construction; the final statement is fig.update_layout (no show
call), followed only by prose. -/
def forestHgbtComparison : Script where
  name := "plot_forest_hist_grad_boosting_comparison"
  imports := [("sklearn.datasets", .sklearn), ("joblib", .joblib),
    ("pandas", .pandas), ("sklearn.ensemble", .sklearn),
    ("sklearn.model_selection", .sklearn), ("plotly.colors", .plotly),
    ("plotly.express", .plotly), ("plotly.subplots", .plotly)]
  ops := [
    ⟨.datasetLoad "fetch_california_housing", .sklearn⟩,
    ⟨.printCall, .stdlib⟩,                         -- dataset size report
    ⟨.attrInspect, .joblib⟩,                       -- N_CORES = joblib.cpu_count(...)
    ⟨.printCall, .stdlib⟩,
    ⟨.estimatorConstruct "RandomForestRegressor" .ensembleTree, .sklearn⟩,
    ⟨.estimatorConstruct "HistGradientBoostingRegressor" .ensembleTree, .sklearn⟩,
    ⟨.libObjectConstruct "KFold", .sklearn⟩,
    -- loop body: for name, model in models.items()
    ⟨.estimatorConstruct "GridSearchCV" .metaEstimator, .sklearn⟩,
    ⟨.fitCall "GridSearchCV", .sklearn⟩,           -- .fit(X, y) over the param grid
    ⟨.dataSlice, .pandas⟩,                         -- cv_results_ DataFrame / append
    ⟨.plotCall, .plotly⟩,                          -- fig = make_subplots(...)
    -- loop body: for idx, result in enumerate(results)
    ⟨.dataSlice, .pandas⟩,                         -- round / param column munging
    ⟨.plotCall, .plotly⟩,                          -- px.scatter / px.line train-time panel
    ⟨.plotCall, .plotly⟩,                          -- trace updates / add_trace
    ⟨.plotCall, .plotly⟩,                          -- px.scatter / px.line predict-time panel
    ⟨.plotCall, .plotly⟩,                          -- trace updates / add_trace
    ⟨.plotCall, .plotly⟩]                          -- fig.update_layout(...) (final statement)

/-- Script src/model_selection/plot_roc_crossval.ipynb: Receiver Operating
Characteristic with cross validation.  load_iris binarized plus noisy
features, an SVC fitted per StratifiedKFold fold with RocCurveDisplay, the
mean-TPR aggregation with end-point pinning and the clipped one-standard-
deviation band, plt.show. -/
def rocCrossval : Script where
  name := "plot_roc_crossval"
  imports := [("numpy", .numpy), ("sklearn.datasets", .sklearn),
    ("matplotlib.pyplot", .matplotlib), ("sklearn", .sklearn),
    ("sklearn.metrics", .sklearn), ("sklearn.model_selection", .sklearn)]
  ops := [
    ⟨.datasetLoad "load_iris", .sklearn⟩,
    ⟨.dataSlice, .numpy⟩,                          -- drop class 2
    ⟨.seedSet, .numpy⟩,                            -- np.random.RandomState(0)
    ⟨.dataGen, .numpy⟩,                            -- noisy features randn
    ⟨.dataSlice, .numpy⟩,                          -- np.concatenate
    ⟨.libObjectConstruct "StratifiedKFold", .sklearn⟩,
    ⟨.estimatorConstruct "SVC" .svc, .sklearn⟩,
    ⟨.dataSlice, .numpy⟩,                          -- mean_fpr = np.linspace(0, 1, 100)
    ⟨.plotCall, .matplotlib⟩,                      -- fig, ax = plt.subplots(figsize=(6, 6))
    -- loop body: for fold, (train, test) in enumerate(cv.split(X, y))
    ⟨.fitCall "SVC", .sklearn⟩,
    ⟨.displayFromEstimator "RocCurveDisplay" false, .sklearn⟩,
    ⟨.numericCompute, .numpy⟩,                     -- np.interp then interp_tpr[0] = 0.0
    ⟨.dataSlice, .stdlib⟩,                         -- tprs.append / aucs.append
    ⟨.numericCompute, .numpy⟩,                     -- mean_tpr = np.mean(tprs, axis=0); mean_tpr[-1] = 1.0
    ⟨.numericCompute, .sklearn⟩,                   -- mean_auc = auc(...); std_auc = np.std(aucs)
    ⟨.plotCall, .matplotlib⟩,                      -- mean ROC line
    ⟨.numericCompute, .numpy⟩,                     -- std_tpr; tprs_upper / tprs_lower clipping
    ⟨.plotCall, .matplotlib⟩,                      -- ax.fill_between band
    ⟨.plotCall, .matplotlib⟩,                      -- labels / legend
    ⟨.showCall, .matplotlib⟩]

/-- Script src/mixture/plot_gmm_covariances.ipynb: GMM covariances.  Local
helper make_ellipses (covariance selection, eigendecomposition, ellipse
patch), load_iris with a StratifiedKFold split, four GaussianMixture
estimators fitted with supervised means_init, accuracy annotations,
plt.show. -/
def gmmCovariances : Script where
  name := "plot_gmm_covariances"
  imports := [("matplotlib", .matplotlib), ("matplotlib.pyplot", .matplotlib),
    ("numpy", .numpy), ("sklearn", .sklearn), ("sklearn.mixture", .sklearn),
    ("sklearn.model_selection", .sklearn)]
  ops := [
    ⟨.helperDef "make_ellipses", .repoLocal⟩,
    -- make_ellipses body
    ⟨.numericCompute, .numpy⟩,                     -- covariance selection / eigh / angle
    ⟨.libObjectConstruct "Ellipse", .matplotlib⟩,
    ⟨.plotCall, .matplotlib⟩,                      -- add_artist / set_aspect
    ⟨.datasetLoad "load_iris", .sklearn⟩,
    ⟨.libObjectConstruct "StratifiedKFold", .sklearn⟩,
    ⟨.dataSlice, .numpy⟩,                          -- first fold train / test split
    ⟨.numericCompute, .numpy⟩,                     -- n_classes = len(np.unique(y_train))
    ⟨.estimatorConstruct "GaussianMixture" .gaussianMixture, .sklearn⟩,  -- one per covariance type
    ⟨.plotCall, .matplotlib⟩,                      -- figure / subplots_adjust
    -- loop body: for index, (name, estimator) in enumerate(estimators.items())
    ⟨.numericCompute, .numpy⟩,                     -- per-class means for means_init
    ⟨.paramSet "GaussianMixture", .sklearn⟩,       -- estimator.means_init = ...
    ⟨.fitCall "GaussianMixture", .sklearn⟩,
    ⟨.plotCall, .matplotlib⟩,                      -- h = plt.subplot(...)
    ⟨.helperCall "make_ellipses", .repoLocal⟩,
    ⟨.plotCall, .matplotlib⟩,                      -- train and test scatters
    ⟨.predictCall "GaussianMixture", .sklearn⟩,
    ⟨.numericCompute, .numpy⟩,                     -- train accuracy mean
    ⟨.plotCall, .matplotlib⟩,                      -- plt.text train accuracy
    ⟨.predictCall "GaussianMixture", .sklearn⟩,
    ⟨.numericCompute, .numpy⟩,                     -- test accuracy mean
    ⟨.plotCall, .matplotlib⟩,                      -- plt.text / ticks / title
    ⟨.plotCall, .matplotlib⟩,                      -- plt.legend
    ⟨.showCall, .matplotlib⟩]

/-- All example scripts of the repository, in the order of the source tree
(each file's related documents included). -/
def repoScripts : List Script := [
  mahalanobisDistances, sgdEarlyStopping,
  forestHgbtComparison,
  faceCompletion, partialDependence,
  gmmCovariances,
  rocCrossval,
  svmIris, learningCurves, precisionRecall, tsnePerplexity,
  dictionaryLearningDenoise, gprCo2, gpcProbabilistic, scalersComparison]

/-! Predicates over scripts and operations. -/

/-- An operation that draws, arranges or displays a plot (matplotlib or
plotly figure construction, sklearn Display plotting, plt.show). -/
def isPlotKind : OpKind → Bool
  | .plotCall => true
  | .showCall => true
  | .displayFromEstimator _ _ => true
  | _ => false

/-- An operation that fits a model: a direct fit or fit_transform call, or a
Display.from_estimator call that fits internally. -/
def isFitKind : OpKind → Bool
  | .fitCall _ => true
  | .fitTransformCall _ => true
  | .displayFromEstimator _ doesFit => doesFit
  | _ => false

/-- An operation carrying out numerical or algorithmic work (loading or
generating data, slicing, fitting, predicting, transforming, scoring, or
other numerical computation). -/
def isNumericalWork : OpKind → Bool
  | .datasetLoad _ => true
  | .dataGen => true
  | .dataSlice => true
  | .fitCall _ => true
  | .fitTransformCall _ => true
  | .predictCall _ => true
  | .transformCall _ => true
  | .scoreCall _ => true
  | .displayFromEstimator _ _ => true
  | .numericCompute => true
  | _ => false

/-- An operation that would be a script-own implementation of an algorithm,
data structure, protocol or concurrency mechanism, or a script-own class. -/
def isOwnImplementation : OpKind → Bool
  | .ownAlgorithmDef => true
  | .classDef _ => true
  | _ => false

/-- The four categories of glue logic the spec lists: dataset
loading/slicing, constructing estimator objects with parameter dictionaries
(including auxiliary library objects and parameter setting), calling
fit/predict/transform, and arranging plots. -/
def fourCategories : OpKind → Bool
  | .datasetLoad _ => true
  | .dataSlice => true
  | .estimatorConstruct _ _ => true
  | .libObjectConstruct _ => true
  | .paramSet _ => true
  | .fitCall _ => true
  | .fitTransformCall _ => true
  | .predictCall _ => true
  | .transformCall _ => true
  | .displayFromEstimator _ _ => true
  | .plotCall => true
  | .showCall => true
  | _ => false

/-- The script loads a toy or public dataset through a library loader. -/
def scriptLoadsDataset (s : Script) : Bool :=
  s.ops.any fun op => match op.kind with
    | .datasetLoad _ => true
    | _ => false

/-- The script generates synthetic data with raw library random calls. -/
def scriptGeneratesData (s : Script) : Bool :=
  s.ops.any fun op => match op.kind with
    | .dataGen => true
    | _ => false

/-- The script fits at least one model. -/
def scriptFits (s : Script) : Bool :=
  s.ops.any fun op => isFitKind op.kind

/-- The script produces a matplotlib or plotly visualization. -/
def scriptVisualizes (s : Script) : Bool :=
  s.ops.any fun op =>
    isPlotKind op.kind && (op.lib == Lib.matplotlib || op.lib == Lib.plotly)

/-- The script's final operation is a plotting or plot-display call. -/
def scriptEndsInPlot (s : Script) : Bool :=
  match s.ops.getLast? with
  | some op => isPlotKind op.kind
  | none => false

/-- Every estimator the script constructs comes from the external ML library
and the script defines no class of its own. -/
def estimatorsFromLibrary (s : Script) : Bool :=
  s.ops.all fun op => match op.kind with
    | .estimatorConstruct _ _ => op.lib == Lib.sklearn
    | .classDef _ => false
    | _ => true

/-- Every import of the script resolves to an external library, never to
another script of the repository. -/
def importsExternal (s : Script) : Bool :=
  s.imports.all fun p => p.2 != Lib.repoLocal

/-- Walking the operations in order, every call to a locally defined helper
is preceded by that helper's definition. -/
def helpersDefinedBefore : List Op → List String → Bool
  | [], _ => true
  | op :: rest, defined =>
    match op.kind with
    | .helperDef n => helpersDefinedBefore rest (n :: defined)
    | .helperCall n => defined.contains n && helpersDefinedBefore rest defined
    | _ => helpersDefinedBefore rest defined

/-- A failure-handling operation either applies a warning suppressor supplied
by an external library, or falls back between two import paths of the same
external library; all other operations are unconstrained. -/
def failureHandlingFromLibrary : OpKind → Bool
  | .tryImportFallback l1 l2 =>
      (l1 != Lib.repoLocal) && (l2 != Lib.repoLocal) && (l1 == l2)
  | .warnSuppressDecorator provider => provider != Lib.repoLocal
  | _ => true

/-- The estimator families the spec enumerates. -/
def specFamilies : List Family :=
  [.svc, .ensembleTree, .gaussianProcess, .covarianceEst, .manifoldTSNE,
   .dictionaryLearning, .scalerTransformer, .gaussianMixture]

/-- The script constructs an estimator of the family and fits an estimator
of the same class. -/
def scriptConstructsAndFits (s : Script) (f : Family) : Bool :=
  s.ops.any fun op => match op.kind with
    | .estimatorConstruct cls fam =>
        fam == f && s.ops.any fun op2 => match op2.kind with
          | .fitCall c => c == cls
          | .fitTransformCall c => c == cls
          | _ => false
    | _ => false

/-! Embedding of the face-completion column split
(src/miscellaneous/plot_multioutput_face_completion.ipynb).  A face row is a
list of pixel values; n_pixels is its length. -/

/-- Upper half of a face row: train[:, : (n_pixels + 1) // 2]. -/
def upperHalfRow (nPixels : Nat) (row : List α) : List α :=
  row.take ((nPixels + 1) / 2)

/-- Lower half of a face row: train[:, n_pixels // 2 :]. -/
def lowerHalfRow (nPixels : Nat) (row : List α) : List α :=
  row.drop (nPixels / 2)

/-- np.hstack of two one-dimensional arrays. -/
def hstack (a b : List α) : List α := a ++ b

/-- Column index i belongs to the upper-half slice [0, (n_pixels + 1) // 2). -/
def inUpperHalfCols (nPixels i : Nat) : Prop := i < (nPixels + 1) / 2

/-- Column index i belongs to the lower-half slice [n_pixels // 2, n_pixels). -/
def inLowerHalfCols (nPixels i : Nat) : Prop := nPixels / 2 ≤ i ∧ i < nPixels

/-! Embedding of the mean-ROC aggregation
(src/model_selection/plot_roc_crossval.ipynb).  TPR values are rationals;
each fold contributes one interpolated TPR array over the common FPR grid. -/

/-- interp_tpr[0] = 0.0: the first element of a fold's interpolated TPR
array is overwritten with zero. -/
def interpTprPinned (l : List ℚ) : List ℚ :=
  match l with
  | [] => []
  | _ :: t => 0 :: t

/-- mean_tpr[-1] = 1.0: the last element of the mean TPR array is
overwritten with one. -/
def setLastOne (l : List ℚ) : List ℚ :=
  match l with
  | [] => []
  | [_] => [1]
  | a :: b :: t => a :: setLastOne (b :: t)

/-- Pointwise sum of two arrays (helper for the axis-0 mean). -/
def addPointwise (a b : List ℚ) : List ℚ := List.zipWith (· + ·) a b

/-- Pointwise sum of a list of arrays. -/
def sumAxis0 : List (List ℚ) → List ℚ
  | [] => []
  | [l] => l
  | l :: ls => addPointwise l (sumAxis0 ls)

/-- np.mean(tprs, axis=0): pointwise mean of the per-fold arrays. -/
def meanAxis0 (ls : List (List ℚ)) : List ℚ :=
  (sumAxis0 ls).map (· / (ls.length : ℚ))

/-- The tprs list accumulated in the cross-validation loop: every raw
np.interp output with its first element pinned to zero. -/
def tprsOf (raw : List (List ℚ)) : List (List ℚ) :=
  raw.map interpTprPinned

/-- mean_tpr: pointwise mean of the per-fold arrays with the last element
pinned to one. -/
def mean_tpr (raw : List (List ℚ)) : List ℚ :=
  setLastOne (meanAxis0 (tprsOf raw))

/-- tprs_upper = np.minimum(mean_tpr + std_tpr, 1). -/
def tprs_upper (meanT stdT : List ℚ) : List ℚ :=
  List.zipWith (fun m s => min (m + s) 1) meanT stdT

/-- tprs_lower = np.maximum(mean_tpr - std_tpr, 0). -/
def tprs_lower (meanT stdT : List ℚ) : List ℚ :=
  List.zipWith (fun m s => max (m - s) 0) meanT stdT

/-! Embedding of make_ellipses' covariance selection
(src/mixture/plot_gmm_covariances.ipynb).  A matrix is a list of rows of
rationals; a fitted GaussianMixture carries its covariance_type string, its
covariances_ array (whose shape depends on the covariance type, as in
scikit-learn), and the number of columns of means_. -/

/-- A matrix as a list of rows. -/
abbrev Mat := List (List ℚ)

/-- The covariances_ array of a fitted GaussianMixture; its shape depends on
covariance_type: (k, d, d) for full, (d, d) for tied, (k, d) for diag and
(k,) for spherical. -/
inductive CovArray
  | full (cs : List Mat)
  | tied (c : Mat)
  | diag (cs : List (List ℚ))
  | spherical (cs : List ℚ)
  deriving DecidableEq

/-- The attributes of a fitted GaussianMixture that make_ellipses reads. -/
structure FittedGMM where
  covariance_type : String
  covariances_ : CovArray
  means_cols : Nat
  deriving DecidableEq

/-- Entry (i, j) of a matrix, zero outside its extent. -/
def entry (m : Mat) (i j : Nat) : ℚ := (m.getD i []).getD j 0

/-- m[:2, :2]: the leading 2 x 2 block. -/
def top2 (m : Mat) : Mat := (m.take 2).map (·.take 2)

/-- A matrix generated from an entry function, as r rows of c columns. -/
def mkMat (r c : Nat) (f : Nat → Nat → ℚ) : Mat :=
  (List.range r).map fun i => (List.range c).map fun j => f i j

/-- np.diag(v): the square diagonal matrix with v on the diagonal. -/
def npDiag (v : List ℚ) : Mat :=
  mkMat v.length v.length fun i j => if i = j then v.getD i 0 else 0

/-- np.eye(d) * c: the d x d identity scaled by c. -/
def npEyeScaled (d : Nat) (c : ℚ) : Mat :=
  mkMat d d fun i j => if i = j then c else 0

/-- The covariance matrix make_ellipses binds for component n: the if/elif
chain over gmm.covariance_type.  none models the fall-through in which the
local variable covariances is never bound (a NameError at the subsequent
np.linalg.eigh call), and also an index or shape failure of the selected
branch. -/
def make_ellipses_covariances (g : FittedGMM) (n : Nat) : Option Mat :=
  if g.covariance_type = "full" then
    match g.covariances_ with
    | .full cs => cs[n]?.map top2
    | _ => none
  else if g.covariance_type = "tied" then
    match g.covariances_ with
    | .tied c => some (top2 c)
    | _ => none
  else if g.covariance_type = "diag" then
    match g.covariances_ with
    | .diag cs => cs[n]?.map fun v => npDiag (v.take 2)
    | _ => none
  else if g.covariance_type = "spherical" then
    match g.covariances_ with
    | .spherical cs => cs[n]?.map fun c => npEyeScaled g.means_cols c
    | _ => none
  else none

/-- The matrix is square of the given size, row lengths included. -/
def hasSize (m : Mat) (d : Nat) : Prop :=
  m.length = d ∧ ∀ r ∈ m, r.length = d

/-- Bounded symmetry of a matrix. -/
def Symm (m : Mat) : Prop :=
  ∀ i < m.length, ∀ j < m.length, entry m i j = entry m j i

instance (m : Mat) (d : Nat) : Decidable (hasSize m d) := by
  unfold hasSize; infer_instance

instance (m : Mat) : Decidable (Symm m) := by
  unfold Symm; infer_instance

/-- The four covariance types make_ellipses handles. -/
def handledCovTypes : List String := ["full", "tied", "diag", "spherical"]

/-- A fitted full-covariance mixture with one component over two features. -/
def gmmFullExample : FittedGMM :=
  ⟨"full", .full [[[4, 1], [1, 3]]], 2⟩

/-- A fitted spherical mixture over four features, as produced by fitting
the iris data (four-dimensional) in the GMM covariances script. -/
def gmmSphericalExample : FittedGMM :=
  ⟨"spherical", .spherical [1], 4⟩

/-! Theorems settling the claims. -/

/-- C1, counterexample.  As stated the claim fails: the scripts' own logic
is not limited to dataset loading/slicing, estimator construction,
fit/predict/transform calls and plot arrangement.  The ROC cross-validation
script in particular contains the mean-TPR/std-band numerical aggregation
(np.interp with end-point pinning, np.mean, np.std, clipping), which is in
none of the four categories. -/
theorem c1_counterexample :
    (repoScripts.all fun s => s.ops.all fun op => fourCategories op.kind) = false ∧
    rocCrossval ∈ repoScripts ∧
    (rocCrossval.ops.all fun op => fourCategories op.kind) = false := by
  refine ⟨rfl, by decide, rfl⟩

/-- C1, amended.  No script implements an algorithm, data structure,
protocol, or concurrency/resource-management mechanism of its own, and
every operation carrying out numerical or algorithmic work delegates it to
an external pre-existing library; but beyond the four glue categories the
scripts also contain library-delegated numerical post-processing,
score/metric computation, timing, printing, seeding, value inspection,
locally defined glue helpers, and two failure-handling constructs. -/
theorem c1_amended_no_own_algorithms :
    (repoScripts.all fun s => s.ops.all fun op =>
      !isOwnImplementation op.kind &&
        (!isNumericalWork op.kind || op.lib != Lib.repoLocal)) = true := by
  rfl

/-- C2, counterexample.  As stated the claim fails: not every script loads a
toy or public dataset.  The Mahalanobis-distances script generates its
contaminated Gaussian data with numpy random calls and contains no dataset
loading operation (the GPC script likewise draws its data from a numpy
RandomState). -/
theorem c2_counterexample :
    (repoScripts.all fun s =>
      scriptLoadsDataset s && scriptFits s && scriptVisualizes s) = false ∧
    mahalanobisDistances ∈ repoScripts ∧
    scriptLoadsDataset mahalanobisDistances = false := by
  refine ⟨rfl, by decide, rfl⟩

/-- C2, amended.  Every script either loads a toy or public dataset through
a library loader or generates synthetic data with library random calls,
fits at least one pre-built library model, and produces a matplotlib or
plotly visualization. -/
theorem c2_amended_load_fit_visualize :
    (repoScripts.all fun s =>
      (scriptLoadsDataset s || scriptGeneratesData s) &&
        scriptFits s && scriptVisualizes s) = true := by
  rfl

/-- C3, counterexample.  As stated the claim fails: the final operation of
the GPR CO2 forecasting script is the bare inspection of the fitted kernel
hyperparameters (gaussian_process.kernel_), after its last plot, so not
every script's final effectful operation is a plotting call. -/
theorem c3_counterexample :
    (repoScripts.all scriptEndsInPlot) = false ∧
    gprCo2 ∈ repoScripts ∧
    scriptEndsInPlot gprCo2 = false := by
  refine ⟨rfl, by decide, rfl⟩

/-- C3, amended.  Every script except the GPR CO2 forecasting script ends in
a plotting or plot-display operation; that script produces matplotlib
visualizations but its final operation is the inspection of the fitted
kernel's hyperparameters, after the last plot. -/
theorem c3_amended_ends_in_plot :
    ((repoScripts.filter fun s => s.name != "plot_gpr_co2").all
      scriptEndsInPlot) = true ∧
    gprCo2.ops.getLast? = some ⟨.attrInspect, .sklearn⟩ ∧
    scriptVisualizes gprCo2 = true := by
  refine ⟨rfl, rfl, rfl⟩

/-- C4.  Every estimator object constructed by any script is an instance of
a class supplied by the external ML library (scikit-learn), and no script
defines an estimator class, or any class, of its own. -/
theorem c4_estimators_from_library :
    (repoScripts.all estimatorsFromLibrary) = true := by
  rfl

/-- C5.  Every script is self-contained: all its imports resolve to external
libraries (never to another script of the repository), and every call to a
locally defined helper function is preceded by that helper's definition in
the same script. -/
theorem c5_self_contained :
    (repoScripts.all fun s =>
      importsExternal s && helpersDefinedBefore s.ops []) = true := by
  rfl

/-- C6.  The only failure-handling constructs in any script are the
ImportError fallback between two import paths of the same scipy library in
the image-denoising script and the ignore_warnings(ConvergenceWarning)
decorator supplied by scikit-learn in the SGD early-stopping script;
neither goes beyond what the wrapped libraries already provide. -/
theorem c6_failure_handling_from_library :
    (repoScripts.all fun s =>
      s.ops.all fun op => failureHandlingFromLibrary op.kind) = true := by
  rfl

/-- C7.  For each estimator family the spec lists (support-vector
classifiers, ensemble trees, Gaussian processes, covariance estimators,
t-SNE manifold learning, dictionary learning, scalers/transformers,
Gaussian mixture models) some script constructs an estimator of that family
and fits an estimator of the same class. -/
theorem c7_all_families_covered :
    (specFamilies.all fun f =>
      repoScripts.any fun s => scriptConstructsAndFits s f) = true := by
  rfl

/-- C8.  For an even number of pixels n, the upper-half columns
[0, (n + 1) / 2) and the lower-half columns [n / 2, n) form an exact
partition of each image row, and horizontally concatenating a test row's
upper half with its true lower half reconstructs the original row
exactly. -/
theorem c8_face_split_partition {α : Type} (n : Nat) (hn : Even n)
    (row : List α) (hlen : row.length = n) :
    hstack (upperHalfRow n row) (lowerHalfRow n row) = row ∧
    ∀ i < n,
      (inUpperHalfCols n i ∧ ¬ inLowerHalfCols n i) ∨
        (¬ inUpperHalfCols n i ∧ inLowerHalfCols n i) := by
  obtain ⟨k, rfl⟩ := hn
  constructor
  · have hhalf : (k + k + 1) / 2 = (k + k) / 2 := by omega
    simp only [hstack, upperHalfRow, lowerHalfRow, hhalf,
      List.take_append_drop]
  · intro i hi
    simp only [inUpperHalfCols, inLowerHalfCols]
    omega

/-- C8, witness: the split at n = 4 on the row [10, 20, 30, 40]. -/
theorem c8_face_split_partition_witness :
    Even 4 ∧ ([10, 20, 30, 40] : List Nat).length = 4 ∧
    (hstack (upperHalfRow 4 [10, 20, 30, 40])
        (lowerHalfRow 4 [10, 20, 30, 40]) = [10, 20, 30, 40] ∧
      ∀ i < 4,
        (inUpperHalfCols 4 i ∧ ¬ inLowerHalfCols 4 i) ∨
          (¬ inUpperHalfCols 4 i ∧ inLowerHalfCols 4 i)) :=
  ⟨by decide, by decide,
    c8_face_split_partition 4 (by decide) [10, 20, 30, 40] (by decide)⟩

/-- Pinning the first element of a nonempty array yields head zero. -/
theorem interpTprPinned_head? (l : List ℚ) (h : l ≠ []) :
    (interpTprPinned l).head? = some 0 := by
  cases l with
  | nil => exact absurd rfl h
  | cons a t => rfl

/-- Pinning the first element preserves nonemptiness. -/
theorem interpTprPinned_ne_nil (l : List ℚ) (h : l ≠ []) :
    interpTprPinned l ≠ [] := by
  cases l with
  | nil => exact absurd rfl h
  | cons a t => simp [interpTprPinned]

/-- Pinning the last element of a nonempty array yields last one. -/
theorem setLastOne_getLast? : ∀ l : List ℚ, l ≠ [] →
    (setLastOne l).getLast? = some 1
  | [], h => absurd rfl h
  | [_], _ => rfl
  | a :: b :: t, _ => by
    have ht := setLastOne_getLast? (b :: t) (by simp)
    show (a :: setLastOne (b :: t)).getLast? = some 1
    cases hsl : setLastOne (b :: t) with
    | nil => rw [hsl] at ht; simp at ht
    | cons c u => rw [hsl] at ht; rw [List.getLast?_cons_cons]; exact ht

/-- The pointwise sum of a nonempty list of nonempty arrays is nonempty. -/
theorem sumAxis0_ne_nil : ∀ ls : List (List ℚ), ls ≠ [] →
    (∀ l ∈ ls, l ≠ []) → sumAxis0 ls ≠ []
  | [], h, _ => absurd rfl h
  | [l], _, h2 => by simpa [sumAxis0] using h2 l (by simp)
  | l :: l' :: ls, _, h2 => by
    have hl : l ≠ [] := h2 l (by simp)
    have hrest : sumAxis0 (l' :: ls) ≠ [] :=
      sumAxis0_ne_nil (l' :: ls) (by simp) fun x hx => h2 x (by simp [hx])
    show addPointwise l (sumAxis0 (l' :: ls)) ≠ []
    cases l with
    | nil => exact absurd rfl hl
    | cons a t =>
      cases hr : sumAxis0 (l' :: ls) with
      | nil => exact absurd hr hrest
      | cons b u => simp [addPointwise]

/-- Every element of the clipped upper band is at most one. -/
theorem tprs_upper_le_one : ∀ m s : List ℚ, ∀ x ∈ tprs_upper m s, x ≤ 1
  | [], _ => by simp [tprs_upper]
  | _ :: _, [] => by simp [tprs_upper]
  | a :: t, b :: u => by
    intro x hx
    simp only [tprs_upper, List.zipWith_cons_cons, List.mem_cons] at hx
    rcases hx with rfl | hx
    · exact min_le_right _ _
    · exact tprs_upper_le_one t u x hx

/-- Every element of the clipped lower band is nonnegative. -/
theorem tprs_lower_nonneg : ∀ m s : List ℚ, ∀ x ∈ tprs_lower m s, 0 ≤ x
  | [], _ => by simp [tprs_lower]
  | _ :: _, [] => by simp [tprs_lower]
  | a :: t, b :: u => by
    intro x hx
    simp only [tprs_lower, List.zipWith_cons_cons, List.mem_cons] at hx
    rcases hx with rfl | hx
    · exact le_max_right _ _
    · exact tprs_lower_nonneg t u x hx

/-- C9.  Every per-fold interpolated TPR array has its first element set to
zero, the mean TPR array has its last element set to one, and the plotted
one-standard-deviation band is clipped so that its upper curve never
exceeds one and its lower curve is never below zero at any grid point. -/
theorem c9_roc_band (raw : List (List ℚ)) (stdT : List ℚ)
    (h1 : raw ≠ []) (h2 : ∀ l ∈ raw, l ≠ []) :
    (∀ l ∈ tprsOf raw, l.head? = some 0) ∧
    (mean_tpr raw).getLast? = some 1 ∧
    (∀ x ∈ tprs_upper (mean_tpr raw) stdT, x ≤ 1) ∧
    (∀ x ∈ tprs_lower (mean_tpr raw) stdT, 0 ≤ x) := by
  refine ⟨?_, ?_, tprs_upper_le_one _ _, tprs_lower_nonneg _ _⟩
  · intro l hl
    simp only [tprsOf, List.mem_map] at hl
    obtain ⟨l₀, hl₀, rfl⟩ := hl
    exact interpTprPinned_head? l₀ (h2 l₀ hl₀)
  · apply setLastOne_getLast?
    simp only [meanAxis0, ne_eq, List.map_eq_nil_iff]
    apply sumAxis0_ne_nil
    · simpa [tprsOf] using h1
    · intro l hl
      simp only [tprsOf, List.mem_map] at hl
      obtain ⟨l₀, hl₀, rfl⟩ := hl
      exact interpTprPinned_ne_nil l₀ (h2 l₀ hl₀)

/-- C9, witness: two folds of two grid points each. -/
theorem c9_roc_band_witness :
    (([[(1 : ℚ)/2, 3/4], [1/4, 1]] : List (List ℚ)) ≠ [] ∧
      (∀ l ∈ ([[(1 : ℚ)/2, 3/4], [1/4, 1]] : List (List ℚ)), l ≠ [])) ∧
    ((∀ l ∈ tprsOf [[(1 : ℚ)/2, 3/4], [1/4, 1]], l.head? = some 0) ∧
      (mean_tpr [[(1 : ℚ)/2, 3/4], [1/4, 1]]).getLast? = some 1 ∧
      (∀ x ∈ tprs_upper (mean_tpr [[(1 : ℚ)/2, 3/4], [1/4, 1]])
          [(1 : ℚ)/4, 1/2], x ≤ 1) ∧
      (∀ x ∈ tprs_lower (mean_tpr [[(1 : ℚ)/2, 3/4], [1/4, 1]])
          [(1 : ℚ)/4, 1/2], 0 ≤ x)) :=
  ⟨⟨by decide, by decide⟩,
    c9_roc_band [[(1 : ℚ)/2, 3/4], [1/4, 1]] [(1 : ℚ)/4, 1/2]
      (by decide) (by decide)⟩

/-- Entry of a generated matrix inside its extent. -/
theorem entry_mkMat (r c : Nat) (f : Nat → Nat → ℚ) (i j : Nat)
    (hi : i < r) (hj : j < c) : entry (mkMat r c f) i j = f i j := by
  unfold entry mkMat
  simp only [List.getD_eq_getElem?_getD]
  rw [List.getElem?_map, List.getElem?_range hi]
  simp only [Option.map_some', Option.getD_some]
  rw [List.getElem?_map, List.getElem?_range hj]
  rfl

/-- A generated square matrix has the stated square size. -/
theorem mkMat_hasSize (d : Nat) (f : Nat → Nat → ℚ) :
    hasSize (mkMat d d f) d := by
  constructor
  · simp [mkMat]
  · intro r hr
    simp only [mkMat, List.mem_map] at hr
    obtain ⟨i, _, rfl⟩ := hr
    simp

/-- A generated square matrix with a symmetric entry function is
symmetric. -/
theorem mkMat_symm (d : Nat) (f : Nat → Nat → ℚ)
    (hf : ∀ i j, f i j = f j i) : Symm (mkMat d d f) := by
  have hd : (mkMat d d f).length = d := (mkMat_hasSize d f).1
  intro i hi j hj
  rw [hd] at hi hj
  rw [entry_mkMat d d f i j hi hj, entry_mkMat d d f j i hj hi, hf]

/-- np.diag of a vector is symmetric. -/
theorem npDiag_symm (v : List ℚ) : Symm (npDiag v) := by
  apply mkMat_symm
  intro i j
  by_cases h : i = j
  · subst h; rfl
  · rw [if_neg h, if_neg (fun hji => h hji.symm)]

/-- np.diag of a vector is square of the vector's length. -/
theorem npDiag_hasSize (v : List ℚ) : hasSize (npDiag v) v.length :=
  mkMat_hasSize v.length _

/-- A scaled identity is symmetric. -/
theorem npEyeScaled_symm (d : Nat) (c : ℚ) : Symm (npEyeScaled d c) := by
  apply mkMat_symm
  intro i j
  by_cases h : i = j
  · subst h; rfl
  · rw [if_neg h, if_neg (fun hji => h hji.symm)]

/-- A scaled identity is square of the stated dimension. -/
theorem npEyeScaled_hasSize (d : Nat) (c : ℚ) :
    hasSize (npEyeScaled d c) d :=
  mkMat_hasSize d _

/-- Entries of the leading 2 x 2 block agree with the original matrix. -/
theorem entry_top2 (m : Mat) (i j : Nat) (hi : i < 2) (hj : j < 2) :
    entry (top2 m) i j = entry m i j := by
  unfold entry top2
  simp only [List.getD_eq_getElem?_getD]
  rw [List.getElem?_map, List.getElem?_take_of_lt hi]
  cases hm : m[i]? with
  | none => rfl
  | some r =>
    simp only [Option.map_some', Option.getD_some]
    rw [List.getElem?_take_of_lt hj]

/-- The leading 2 x 2 block of a square matrix of dimension at least two is
2 x 2. -/
theorem top2_hasSize (m : Mat) (d : Nat) (h : hasSize m d) (hd : 2 ≤ d) :
    hasSize (top2 m) 2 := by
  obtain ⟨hlen, hrows⟩ := h
  constructor
  · simp [top2, List.length_take, hlen]
    omega
  · intro r hr
    simp only [top2, List.mem_map] at hr
    obtain ⟨r₀, hr₀, rfl⟩ := hr
    have : r₀.length = d := hrows r₀ (List.take_subset 2 m hr₀)
    simp [List.length_take, this]
    omega

/-- The leading 2 x 2 block of a symmetric square matrix of dimension at
least two is symmetric. -/
theorem top2_symm (m : Mat) (d : Nat) (h : hasSize m d) (hd : 2 ≤ d)
    (hs : Symm m) : Symm (top2 m) := by
  have h2 : (top2 m).length = 2 := (top2_hasSize m d h hd).1
  have hml : m.length = d := h.1
  intro i hi j hj
  rw [h2] at hi hj
  rw [entry_top2 m i j hi hj, entry_top2 m j i hj hi]
  exact hs i (by omega) j (by omega)

/-- C10, counterexample.  As stated the claim fails: in the spherical
branch make_ellipses binds np.eye(gmm.means_.shape[1]) times the component
variance, a square matrix of the full feature dimension.  For the
four-dimensional iris data of the script this is a 4 x 4 matrix, not a
2 x 2 one. -/
theorem c10_counterexample :
    make_ellipses_covariances gmmSphericalExample 0 =
      some (npEyeScaled 4 1) ∧
    ¬ hasSize (npEyeScaled 4 1) 2 := by
  exact ⟨rfl, by decide⟩

/-- C10, amended.  make_ellipses binds its covariance matrix only in the
four branches for covariance_type full, tied, diag, spherical: any other
value leaves the local variable unbound (modelled as none, a NameError at
the eigendecomposition).  The full, tied and diag branches always produce a
2 x 2 symmetric matrix; the spherical branch instead produces a square
symmetric scaled-identity matrix of the means' feature dimension, which is
2 x 2 only when that dimension is two. -/
theorem c10_amended_covariance_selection (g : FittedGMM) (n : Nat) :
    (g.covariance_type ∉ handledCovTypes →
      make_ellipses_covariances g n = none) ∧
    (∀ cs m, g.covariance_type = "full" → g.covariances_ = .full cs →
      cs[n]? = some m → Symm m → 2 ≤ m.length → hasSize m m.length →
      make_ellipses_covariances g n = some (top2 m) ∧
        hasSize (top2 m) 2 ∧ Symm (top2 m)) ∧
    (∀ c, g.covariance_type = "tied" → g.covariances_ = .tied c →
      Symm c → 2 ≤ c.length → hasSize c c.length →
      make_ellipses_covariances g n = some (top2 c) ∧
        hasSize (top2 c) 2 ∧ Symm (top2 c)) ∧
    (∀ cs v, g.covariance_type = "diag" → g.covariances_ = .diag cs →
      cs[n]? = some v → 2 ≤ v.length →
      make_ellipses_covariances g n = some (npDiag (v.take 2)) ∧
        hasSize (npDiag (v.take 2)) 2 ∧ Symm (npDiag (v.take 2))) ∧
    (∀ cs c, g.covariance_type = "spherical" →
      g.covariances_ = .spherical cs → cs[n]? = some c →
      make_ellipses_covariances g n =
          some (npEyeScaled g.means_cols c) ∧
        hasSize (npEyeScaled g.means_cols c) g.means_cols ∧
        Symm (npEyeScaled g.means_cols c)) := by
  obtain ⟨t, cov, d⟩ := g
  refine ⟨?_, ?_, ?_, ?_, ?_⟩
  · intro h
    simp only [handledCovTypes, List.mem_cons, List.not_mem_nil, or_false,
      not_or] at h
    obtain ⟨h1, h2, h3, h4⟩ := h
    simp [make_ellipses_covariances, h1, h2, h3, h4]
  · intro cs m ht hc hget hsym hlen hsize
    subst ht
    subst hc
    refine ⟨?_, top2_hasSize m m.length hsize hlen,
      top2_symm m m.length hsize hlen hsym⟩
    simp [make_ellipses_covariances, hget]
  · intro c ht hc hsym hlen hsize
    subst ht
    subst hc
    exact ⟨by simp [make_ellipses_covariances],
      top2_hasSize c c.length hsize hlen,
      top2_symm c c.length hsize hlen hsym⟩
  · intro cs v ht hc hget hlen
    subst ht
    subst hc
    refine ⟨by simp [make_ellipses_covariances, hget], ?_, npDiag_symm _⟩
    have : (v.take 2).length = 2 := by
      simp [List.length_take]
      omega
    simpa [this] using npDiag_hasSize (v.take 2)
  · intro cs c ht hc hget
    subst ht
    subst hc
    exact ⟨by simp [make_ellipses_covariances, hget],
      npEyeScaled_hasSize d c, npEyeScaled_symm d c⟩

/-- C10, witness: the full branch on a single 2 x 2 component. -/
theorem c10_amended_covariance_selection_witness :
    (gmmFullExample.covariance_type = "full" ∧
      gmmFullExample.covariances_ = .full [[[4, 1], [1, 3]]] ∧
      ([[[(4 : ℚ), 1], [1, 3]]] : List Mat)[0]? = some [[4, 1], [1, 3]] ∧
      Symm [[(4 : ℚ), 1], [1, 3]] ∧
      2 ≤ ([[(4 : ℚ), 1], [1, 3]] : Mat).length ∧
      hasSize [[(4 : ℚ), 1], [1, 3]]
        ([[(4 : ℚ), 1], [1, 3]] : Mat).length) ∧
    (make_ellipses_covariances gmmFullExample 0 =
        some (top2 [[(4 : ℚ), 1], [1, 3]]) ∧
      hasSize (top2 [[(4 : ℚ), 1], [1, 3]]) 2 ∧
      Symm (top2 [[(4 : ℚ), 1], [1, 3]])) :=
  ⟨⟨rfl, rfl, rfl, by decide, by decide, by decide⟩,
    (c10_amended_covariance_selection gmmFullExample 0).2.1
      [[[4, 1], [1, 3]]] [[4, 1], [1, 3]] rfl rfl rfl
      (by decide) (by decide) (by decide)⟩

end SklearnExamples
